import Mathlib

/-!
Verification development for `jules-scratch/verification/verify_calendar.py`,
a linear end-to-end browser-verification script.  The script starts a static
file server on a daemon thread, launches a headless browser, installs a
network-interception rule that answers schedule API calls with a fixed mock
dataset, navigates to a calendar page, clicks a day, asserts on the modal
that opens, saves a screenshot, and closes the browser.

The embedding below models:
  * the JSON mock dataset (`mock_schedule`) as a concrete JSON value;
  * the interception handler `handle_route` as a function from the request
    URL to a routing action (fulfill / pass through);
  * the linear run `run_verification` as a function from an environment
    (what the browser / DOM actually shows) to the ordered list of executed
    steps plus a success flag; a Python exception at a step aborts the run,
    so the trace stops at the first failing step;
  * relative-path resolution for the served directory and the screenshot
    output path.
-/

/-! ### String helpers

`re.search(r"api/v1/schedule", url)` in the source uses a pattern with no
regex metacharacters, so it is exactly a substring test.  Playwright's
`has_text` and `get_by_role(name=...)` match case-insensitive substrings.
-/

/-- `startsWith needle hay` is true when `needle` is an initial segment of
`hay` (character lists). -/
def startsWith : List Char → List Char → Bool
  | [], _ => true
  | _ :: _, [] => false
  | a :: as, b :: bs => a == b && startsWith as bs

/-- `hasSub needle hay` is true when `needle` occurs as a contiguous
substring of `hay`. -/
def hasSub (needle : List Char) : List Char → Bool
  | [] => startsWith needle []
  | c :: rest => startsWith needle (c :: rest) || hasSub needle rest

/-- Lower-case a character list (models Playwright's case-insensitive text
matching). -/
def lowerChars (s : List Char) : List Char := s.map Char.toLower

/-- Case-insensitive substring match, as used by Playwright `has_text` and
the `name` option of `get_by_role`. -/
def ciSub (pat actual : String) : Bool :=
  hasSub (lowerChars pat.data) (lowerChars actual.data)

/-! ### JSON values and the mock dataset -/

/-- Minimal JSON value type (numbers here are integers, which covers the
mock dataset). -/
inductive Json where
  | num (n : Int)
  | str (s : String)
  | arr (elems : List Json)
  | obj (fields : List (String × Json))
  deriving Repr

/-- The `mock_schedule` dictionary built in `run_verification`
(verify_calendar.py lines 29–34), transcribed field by field. -/
def mock_schedule : Json :=
  Json.obj [("duties", Json.arr [
    Json.obj [("id", Json.num 1), ("date", Json.str "2025-10-15T00:00:00Z"),
      ("title", Json.str "Morning Duty"), ("time", Json.str "08:00"),
      ("assignees", Json.arr [Json.obj [("id", Json.num 101), ("name", Json.str "Alice")]])],
    Json.obj [("id", Json.num 2), ("date", Json.str "2025-10-20T00:00:00Z"),
      ("title", Json.str "Evening Duty"), ("time", Json.str "18:00"),
      ("assignees", Json.arr [Json.obj [("id", Json.num 123), ("name", Json.str "Dev User")]])]])]

/-! ### The interception handler -/

/-- What `handle_route` does with one outgoing request: fulfill it with a
canned status and JSON body, or let it continue to the real server. -/
inductive RouteAction where
  | fulfill (status : Nat) (body : Json)
  | continueRoute
  deriving Repr

/-- `re.search(r"api/v1/schedule", url)` succeeds: the pattern has no regex
metacharacters, so this is containment of the literal substring. -/
def urlMatchesSchedule (url : String) : Bool :=
  hasSub ("api/v1/schedule").data url.data

/-- The `handle_route` callback (verify_calendar.py lines 36–41): requests
whose URL contains `api/v1/schedule` are fulfilled with status 200 and the
mock dataset as JSON body; every other request continues to the static
file server. -/
def handle_route (url : String) : RouteAction :=
  if urlMatchesSchedule url then RouteAction.fulfill 200 mock_schedule
  else RouteAction.continueRoute

/-! ### Constants of the script -/

/-- `PORT = 8010` (verify_calendar.py line 8). -/
def PORT : Nat := 8010

/-- `SERVE_DIR = "."` (verify_calendar.py line 10): the served root is the
current working directory. -/
def SERVE_DIR : String := "."

/-- The fixed page URL of verify_calendar.py line 48: the f-string
interpolates `PORT = 8010` into `http://localhost:8010/web/index.html`. -/
def page_url : String := "http://localhost:8010/web/index.html"

/-- `screenshot_path = "jules-scratch/verification/verification.png"`
(verify_calendar.py line 76). -/
def screenshot_path : String := "jules-scratch/verification/verification.png"

/-- The timeout passed to the calendar visibility wait:
`to_be_visible(timeout=10000)` (verify_calendar.py line 54), in
milliseconds. -/
def calendarTimeoutMs : Nat := 10000

/-- What one `page.screenshot` call writes: the output path and whether the
whole scrollable page is captured.  The source passes only `path=...`;
Playwright's `full_page` option defaults to `False` (viewport only), and the
`.png` extension selects the PNG format. -/
structure ScreenshotSpec where
  path : String
  fullPage : Bool
  deriving Repr, DecidableEq

/-- The screenshot call of verify_calendar.py line 77:
`page.screenshot(path=screenshot_path)` — no `full_page` argument, so the
Playwright default `full_page=False` applies. -/
def screenshot_spec : ScreenshotSpec :=
  { path := screenshot_path, fullPage := false }

/-- `p` ends in `.png` (Playwright derives the image format from the
extension). -/
def hasPngExt (p : String) : Bool :=
  startsWith (".png").data.reverse p.data.reverse

/-! ### Relative-path resolution

Both `SERVE_DIR` and `screenshot_path` are relative paths; the operating
system resolves a relative path against the process's current working
directory, not against the script file's location. -/

/-- A POSIX path is absolute exactly when it starts with `/`. -/
def isAbsolutePath (p : String) : Bool :=
  match p.data with
  | [] => false
  | c :: _ => c == '/'

/-- Resolve path `p` against working directory `cwd`: an absolute path is
used as is, a relative one is interpreted under `cwd`. -/
def resolveUnder (cwd : String) (p : String) : String :=
  if isAbsolutePath p then p else cwd ++ "/" ++ p

/-! ### The browser environment

The script drives a real browser; what each `expect(...)` observes is
outside the script's control.  The environment records those observations:
how many elements each locator resolves to and whether they are visible.
`expect(locator).to_be_visible()` passes exactly when the locator resolves
to a single element and that element is visible: zero matches time out, and
two or more matches raise a strict-mode violation. -/

/-- A button element as seen by `get_by_role('button', name=...)`: its
accessible name, whether it is visible, and whether it is enabled. -/
structure ButtonEl where
  name : String
  visible : Bool
  enabled : Bool
  deriving Repr, DecidableEq

/-- An element matching the `.duty-card` locator inside the modal: its text
content (inspected by `has_text`), its visibility, and the buttons it
contains. -/
structure DutyCard where
  text : String
  visible : Bool
  buttons : List ButtonEl
  deriving Repr, DecidableEq

/-- The observable behaviour of the environment during one run:

* `serverBindOk` — whether `TCPServer(("", PORT), Handler)` could bind the
  port; the bind happens inside the daemon server thread, and an exception
  there is printed by `threading` and ends only that thread;
* `launchOk` — whether `p.chromium.launch(headless=True)` succeeds;
* `gotoOk` — whether `page.goto(page_url, wait_until="networkidle")`
  succeeds;
* `calendarVisibleAt` — the time (ms after the wait starts) at which the
  unique `#calendar-container .vanilla-calendar` element becomes visible,
  or `none` if it never does;
* `dayButtons` — the visibility of each element resolved by the
  `.vanilla-calendar-day__btn[data-calendar-day="2025-10-20"]` locator;
* `modalVisible` — whether the `#duty-details-modal` element is visible;
* `headingVisible` — whether the element with text
  `Duties for 2025-10-20` inside the modal is visible;
* `dutyCards` — the elements resolved by `.duty-card` inside the modal. -/
structure Env where
  serverBindOk : Bool
  launchOk : Bool
  gotoOk : Bool
  calendarVisibleAt : Option Nat
  dayButtons : List Bool
  modalVisible : Bool
  headingVisible : Bool
  dutyCards : List DutyCard
  deriving Repr, DecidableEq

/-- `expect(locator).to_be_visible()` over the list of visibilities of the
elements the locator resolves to: exactly one element, and it is visible. -/
def expectVisible (resolved : List Bool) : Bool :=
  match resolved with
  | [b] => b
  | _ => false

/-- `expect(locator).to_be_visible(timeout=t)`: the element must have become
visible no later than `t` milliseconds into the wait. -/
def expectVisibleTimeout (timeoutMs : Nat) (visibleAt : Option Nat) : Bool :=
  match visibleAt with
  | some t => decide (t ≤ timeoutMs)
  | none => false

/-- `modal_locator.locator('.duty-card', has_text='Evening Duty')`:
the cards whose text contains the given text (case-insensitive substring,
Playwright `has_text` semantics). -/
def cardsWithText (t : String) (cards : List DutyCard) : List DutyCard :=
  cards.filter fun c => ciSub t c.text

/-- `locator.get_by_role('button', name=nm)`: role matching skips hidden
elements by default, and `name` is a case-insensitive substring match. -/
def getByRoleButton (nm : String) (btns : List ButtonEl) : List ButtonEl :=
  btns.filter fun b => b.visible && ciSub nm b.name

/-- The duty-card assertion of verify_calendar.py lines 70–71:
`expect(duty_card_locator).to_be_visible()` on the cards matching
`has_text='Evening Duty'`. -/
def cardAssertOk (env : Env) : Bool :=
  expectVisible ((cardsWithText "Evening Duty" env.dutyCards).map DutyCard.visible)

/-- The Withdraw-button assertion of verify_calendar.py lines 73–74.  This
step runs only after the duty-card assertion passed, so the card locator
has resolved to a single card; the assertion inspects the `Withdraw`-named
buttons of that card.  Note that only visibility is asserted — `enabled`
is never read. -/
def withdrawAssertOk (env : Env) : Bool :=
  match cardsWithText "Evening Duty" env.dutyCards with
  | [c] => expectVisible ((getByRoleButton "Withdraw" c.buttons).map ButtonEl.visible)
  | _ => false

/-! ### The linear run -/

/-- The steps of `run_verification`, in source order.  `routeInstall` is the
`page.route(...)` call, performed before navigation; `dayClick` is the
`day_with_duty_locator.click()` call. -/
inductive Step where
  | serverStart
  | browserLaunch
  | routeInstall
  | navigate
  | calendarAssert
  | dayAssert
  | dayClick
  | modalAssert
  | headingAssert
  | cardAssert
  | withdrawAssert
  | screenshot
  | browserClose
  deriving Repr, DecidableEq

/-- The full step sequence of `run_verification` on the success path
(verify_calendar.py lines 21–80), in source order. -/
def scriptSteps : List Step :=
  [Step.serverStart, Step.browserLaunch, Step.routeInstall, Step.navigate,
   Step.calendarAssert, Step.dayAssert, Step.dayClick, Step.modalAssert,
   Step.headingAssert, Step.cardAssert, Step.withdrawAssert,
   Step.screenshot, Step.browserClose]

/-- `run_verification` (verify_calendar.py lines 21–80) as a function of
the environment: the ordered list of steps that actually execute, and
whether the run completed.  The script is a straight line of blocking
calls; an unhandled exception at any step aborts the run there, so the
trace ends at the first failing step, and every later statement —
including `browser.close()` — never executes.

`server_thread.start()` always succeeds from the main thread's point of
view: the thread is a daemon and a bind failure (`OSError` from
`TCPServer`) raised inside it is printed by `threading` and terminates only
that thread, so `env.serverBindOk` does not influence the main flow. -/
def run_verification (env : Env) : List Step × Bool :=
  if env.launchOk = false then
    ([Step.serverStart, Step.browserLaunch], false)
  else if env.gotoOk = false then
    ([Step.serverStart, Step.browserLaunch, Step.routeInstall, Step.navigate], false)
  else if expectVisibleTimeout calendarTimeoutMs env.calendarVisibleAt = false then
    ([Step.serverStart, Step.browserLaunch, Step.routeInstall, Step.navigate,
      Step.calendarAssert], false)
  else if expectVisible env.dayButtons = false then
    ([Step.serverStart, Step.browserLaunch, Step.routeInstall, Step.navigate,
      Step.calendarAssert, Step.dayAssert], false)
  else if env.modalVisible = false then
    ([Step.serverStart, Step.browserLaunch, Step.routeInstall, Step.navigate,
      Step.calendarAssert, Step.dayAssert, Step.dayClick, Step.modalAssert], false)
  else if env.headingVisible = false then
    ([Step.serverStart, Step.browserLaunch, Step.routeInstall, Step.navigate,
      Step.calendarAssert, Step.dayAssert, Step.dayClick, Step.modalAssert,
      Step.headingAssert], false)
  else if cardAssertOk env = false then
    ([Step.serverStart, Step.browserLaunch, Step.routeInstall, Step.navigate,
      Step.calendarAssert, Step.dayAssert, Step.dayClick, Step.modalAssert,
      Step.headingAssert, Step.cardAssert], false)
  else if withdrawAssertOk env = false then
    ([Step.serverStart, Step.browserLaunch, Step.routeInstall, Step.navigate,
      Step.calendarAssert, Step.dayAssert, Step.dayClick, Step.modalAssert,
      Step.headingAssert, Step.cardAssert, Step.withdrawAssert], false)
  else (scriptSteps, true)

/-- The files a step writes: only the screenshot step writes, to the fixed
relative path. -/
def stepWrites : Step → List String
  | Step.screenshot => [screenshot_spec.path]
  | _ => []

/-- All files written during a run, in order. -/
def runWrites (env : Env) : List String :=
  ((run_verification env).1.map stepWrites).flatten

/-! ### Concrete environments used as witnesses -/

/-- An environment on which everything the script asserts holds: one
visible matching day button, one visible Evening Duty card with one
visible, enabled Withdraw button. -/
def envOk : Env :=
  { serverBindOk := true, launchOk := true, gotoOk := true,
    calendarVisibleAt := some 120,
    dayButtons := [true],
    modalVisible := true, headingVisible := true,
    dutyCards := [{ text := "Evening Duty 18:00 Dev User", visible := true,
                    buttons := [{ name := "Withdraw", visible := true, enabled := true }] }] }

/-- Like `envOk`, except the port bind fails inside the daemon thread (for
instance a previous instance of the same server still holds the port and
keeps serving the same tree). -/
def envBindFail : Env :=
  { envOk with serverBindOk := false }

/-- Like `envOk`, except the single Withdraw button is disabled (still
visible). -/
def envWithdrawDisabled : Env :=
  { serverBindOk := true, launchOk := true, gotoOk := true,
    calendarVisibleAt := some 120,
    dayButtons := [true],
    modalVisible := true, headingVisible := true,
    dutyCards := [{ text := "Evening Duty 18:00 Dev User", visible := true,
                    buttons := [{ name := "Withdraw", visible := true, enabled := false }] }] }

/-- Like `envOk`, except no element matches the day selector. -/
def envDayMissing : Env :=
  { envOk with dayButtons := [] }

/-! ### Structure of the run: shared lemmas -/

/-- The run completes exactly when every fallible step succeeds: browser
launch, navigation, the bounded calendar wait, and the five element
assertions. -/
theorem run_success_iff (env : Env) :
    (run_verification env).2 = true ↔
      (env.launchOk = true ∧ env.gotoOk = true
       ∧ expectVisibleTimeout calendarTimeoutMs env.calendarVisibleAt = true
       ∧ expectVisible env.dayButtons = true
       ∧ env.modalVisible = true ∧ env.headingVisible = true
       ∧ cardAssertOk env = true ∧ withdrawAssertOk env = true) := by
  unfold run_verification
  repeat' split
  all_goals simp_all

/-- A completed run executed the whole step sequence in source order. -/
theorem run_success_trace (env : Env) (h : (run_verification env).2 = true) :
    (run_verification env).1 = scriptSteps := by
  unfold run_verification at h ⊢
  repeat' split at h
  all_goals simp_all

/-- A failed run stops at the first failing step: its trace is one of the
eight strict prefixes of `scriptSteps` that end at a fallible step. -/
theorem run_fail_cases (env : Env) (h : (run_verification env).2 = false) :
    (run_verification env).1 = [Step.serverStart, Step.browserLaunch] ∨
    (run_verification env).1 = [Step.serverStart, Step.browserLaunch,
      Step.routeInstall, Step.navigate] ∨
    (run_verification env).1 = [Step.serverStart, Step.browserLaunch,
      Step.routeInstall, Step.navigate, Step.calendarAssert] ∨
    (run_verification env).1 = [Step.serverStart, Step.browserLaunch,
      Step.routeInstall, Step.navigate, Step.calendarAssert, Step.dayAssert] ∨
    (run_verification env).1 = [Step.serverStart, Step.browserLaunch,
      Step.routeInstall, Step.navigate, Step.calendarAssert, Step.dayAssert,
      Step.dayClick, Step.modalAssert] ∨
    (run_verification env).1 = [Step.serverStart, Step.browserLaunch,
      Step.routeInstall, Step.navigate, Step.calendarAssert, Step.dayAssert,
      Step.dayClick, Step.modalAssert, Step.headingAssert] ∨
    (run_verification env).1 = [Step.serverStart, Step.browserLaunch,
      Step.routeInstall, Step.navigate, Step.calendarAssert, Step.dayAssert,
      Step.dayClick, Step.modalAssert, Step.headingAssert, Step.cardAssert] ∨
    (run_verification env).1 = [Step.serverStart, Step.browserLaunch,
      Step.routeInstall, Step.navigate, Step.calendarAssert, Step.dayAssert,
      Step.dayClick, Step.modalAssert, Step.headingAssert, Step.cardAssert,
      Step.withdrawAssert] := by
  unfold run_verification at h ⊢
  repeat' split at h
  all_goals simp_all

/-! ### The claims -/

/-- Claim C1: the interception handler fulfills a request with HTTP status
200 and the fixed mock dataset as JSON body exactly when the request URL
contains the substring `api/v1/schedule`, and passes every other request
through to the static file server.  The body of every fulfilled response is
the single constant `mock_schedule`, which the script never mutates, so all
matching requests receive identical bodies. -/
theorem handle_route_interception (u : String) :
    (handle_route u = RouteAction.fulfill 200 mock_schedule ↔
      urlMatchesSchedule u = true)
    ∧ (handle_route u = RouteAction.continueRoute ↔
      urlMatchesSchedule u = false) := by
  cases h : urlMatchesSchedule u <;> simp [handle_route, h]

/-- Claim C2, counterexample: in `envWithdrawDisabled` the only Withdraw
control on the Evening Duty card is disabled (its `enabled` list is
`[false]`), yet the whole run — including the Withdraw assertion — passes:
the script only asserts `to_be_visible()` and never reads the enabled
state, so a present-but-disabled Withdraw control does not make the run
fail. -/
theorem withdraw_disabled_still_passes :
    ((envWithdrawDisabled.dutyCards.map DutyCard.buttons).flatten.map
        ButtonEl.enabled = [false])
    ∧ (run_verification envWithdrawDisabled).2 = true := by decide

/-- Claim C2 (amended): after the click, the duty-card and Withdraw
assertions pass exactly when the modal's `.duty-card` elements contain
exactly one card matching the text `Evening Duty`, that card is visible,
and it contains exactly one visible button whose accessible name matches
`Withdraw` — whether that button is enabled is never consulted.  A missing
card, a duplicated card, or a missing/hidden/duplicated Withdraw button
makes the run fail. -/
theorem card_withdraw_assertions (env : Env) :
    (cardAssertOk env && withdrawAssertOk env) = true ↔
      ∃ c, cardsWithText "Evening Duty" env.dutyCards = [c] ∧ c.visible = true ∧
        ∃ b, getByRoleButton "Withdraw" c.buttons = [b] := by
  unfold cardAssertOk withdrawAssertOk
  cases h : cardsWithText "Evening Duty" env.dutyCards with
  | nil => simp [h, expectVisible]
  | cons c rest =>
    cases rest with
    | nil =>
      cases h2 : getByRoleButton "Withdraw" c.buttons with
      | nil => simp [h, h2, expectVisible]
      | cons b rest2 =>
        cases rest2 with
        | nil =>
          have hb : b.visible = true := by
            have hmem : b ∈ getByRoleButton "Withdraw" c.buttons := by
              rw [h2]; exact List.mem_singleton_self b
            unfold getByRoleButton at hmem
            have hf := List.of_mem_filter hmem
            simp only [Bool.and_eq_true] at hf
            exact hf.1
          simp [h, h2, expectVisible, hb]
        | cons b2 rest3 => simp [h, h2, expectVisible]
    | cons c2 rest2 => simp [h, expectVisible]

/-- The environment of `envOk` except that the calendar container never
becomes visible. -/
def envCalendarNever : Env := { envOk with calendarVisibleAt := none }

/-- Claim C3: the calendar-visibility wait is bounded by exactly 10 seconds
(the `timeout=10000` milliseconds of verify_calendar.py line 54); the wait
passes exactly when the container becomes visible within that bound, and
when it does not (and the run got that far), the run terminates at the
calendar assertion with a failure — `run_verification` is a total function,
so it never blocks. -/
theorem calendar_visibility_timeout (env : Env) :
    calendarTimeoutMs = 10 * 1000
    ∧ (expectVisibleTimeout calendarTimeoutMs env.calendarVisibleAt = true ↔
        ∃ t, env.calendarVisibleAt = some t ∧ t ≤ calendarTimeoutMs)
    ∧ (env.launchOk = true → env.gotoOk = true →
        expectVisibleTimeout calendarTimeoutMs env.calendarVisibleAt = false →
        run_verification env =
          ([Step.serverStart, Step.browserLaunch, Step.routeInstall,
            Step.navigate, Step.calendarAssert], false)) := by
  refine ⟨rfl, ?_, ?_⟩
  · cases hc : env.calendarVisibleAt with
    | none => simp [expectVisibleTimeout]
    | some t => simp [expectVisibleTimeout]
  · intro h1 h2 h3
    simp [run_verification, h1, h2, h3]

/-- Witness for claim C3: on `envCalendarNever` (calendar never visible,
everything earlier fine) the run stops at the calendar assertion with a
failure. -/
theorem calendar_visibility_timeout_witness :
    run_verification envCalendarNever =
      ([Step.serverStart, Step.browserLaunch, Step.routeInstall,
        Step.navigate, Step.calendarAssert], false) :=
  (calendar_visibility_timeout envCalendarNever).2.2 (by decide) (by decide)
    (by decide)

/-- Claim C4, counterexample: in `envBindFail` the port bind fails
(`serverBindOk = false`, e.g. the port is held by another process that
serves the same tree), yet the whole run completes successfully — the bind
failure is not fatal to the process, because the `OSError` is raised inside
the daemon server thread and never reaches the main thread. -/
theorem bind_failure_run_completes :
    envBindFail.serverBindOk = false
    ∧ run_verification envBindFail = (scriptSteps, true) := by decide

/-- Claim C4 (amended): a port-bind failure is fatal only to the daemon
server thread, not to the run: the result of `run_verification` is
independent of `serverBindOk`, and the main flow always proceeds past the
server-start step to the browser-launch step. -/
theorem bind_failure_confined_to_thread (e : Env) (b : Bool) :
    run_verification { e with serverBindOk := b } = run_verification e
    ∧ Step.serverStart ∈ (run_verification e).1
    ∧ Step.browserLaunch ∈ (run_verification e).1 := by
  refine ⟨rfl, ?_, ?_⟩ <;>
  · unfold run_verification
    repeat' split
    all_goals simp [scriptSteps]

/-- Claim C5, counterexample: the screenshot call does not pass
`full_page=True`, so Playwright's default applies and only the viewport is
captured — not the entire scrollable page. -/
theorem screenshot_not_full_page : screenshot_spec.fullPage = false := rfl

/-- Claim C5 (amended): on the successful path the capture step saves a
viewport screenshot (Playwright's `full_page` defaults to false) as a PNG
to the single fixed relative path
`jules-scratch/verification/verification.png`, and this is the only file
the script writes. -/
theorem screenshot_on_success (env : Env)
    (h : (run_verification env).2 = true) :
    runWrites env = [screenshot_path]
    ∧ screenshot_spec.path = screenshot_path
    ∧ hasPngExt screenshot_spec.path = true
    ∧ screenshot_spec.fullPage = false := by
  refine ⟨?_, rfl, by decide, rfl⟩
  unfold runWrites
  rw [run_success_trace env h]
  decide

/-- Witness for claim C5 (amended): on `envOk` the run succeeds and writes
exactly the fixed screenshot file. -/
theorem screenshot_on_success_witness :
    runWrites envOk = [screenshot_path]
    ∧ screenshot_spec.path = screenshot_path
    ∧ hasPngExt screenshot_spec.path = true
    ∧ screenshot_spec.fullPage = false :=
  screenshot_on_success envOk (by decide)

/-- Claim C6: `browser.close()` is the last step of the successful path and
always executes there; there is no cleanup-on-failure — when any step
fails, the run aborts and the close step never executes. -/
theorem browser_close_only_on_success (env : Env) :
    ((run_verification env).2 = true →
      (run_verification env).1.getLast? = some Step.browserClose)
    ∧ ((run_verification env).2 = false →
      Step.browserClose ∉ (run_verification env).1) := by
  constructor
  · intro h
    rw [run_success_trace env h]
    decide
  · intro h
    rcases run_fail_cases env h with h1|h1|h1|h1|h1|h1|h1|h1 <;>
      rw [h1] <;> decide

/-- Witness for claim C6: on `envOk` the run succeeds and its last executed
step is the browser close; on `envDayMissing` the run fails and the close
step is never executed. -/
theorem browser_close_only_on_success_witness :
    (run_verification envOk).1.getLast? = some Step.browserClose
    ∧ Step.browserClose ∉ (run_verification envDayMissing).1 :=
  ⟨(browser_close_only_on_success envOk).1 (by decide),
   (browser_close_only_on_success envDayMissing).2 (by decide)⟩

/-- Claim C7: when no element matches the target day selector, the day
assertion fails: the run does not complete, the click step never executes,
and if the run got as far as the day assertion then that assertion is the
last step executed — the click is never silently skipped. -/
theorem day_missing_fails_before_click (env : Env)
    (h : env.dayButtons = []) :
    (run_verification env).2 = false
    ∧ Step.dayClick ∉ (run_verification env).1
    ∧ (Step.dayAssert ∈ (run_verification env).1 →
        (run_verification env).1.getLast? = some Step.dayAssert) := by
  have hev : expectVisible env.dayButtons = false := by rw [h]; rfl
  have hflag : (run_verification env).2 = false := by
    cases hf : (run_verification env).2
    · rfl
    · have hc := (run_success_iff env).mp hf
      rw [hev] at hc
      exact absurd hc.2.2.2.1 (by decide)
  refine ⟨hflag, ?_, ?_⟩ <;>
  · unfold run_verification
    repeat' split
    all_goals simp_all [expectVisible]

/-- Witness for claim C7: on `envDayMissing` (no day element, everything
earlier fine) the run fails, the click never executes, and the trace ends
at the day assertion. -/
theorem day_missing_fails_before_click_witness :
    (run_verification envDayMissing).2 = false
    ∧ Step.dayClick ∉ (run_verification envDayMissing).1
    ∧ (Step.dayAssert ∈ (run_verification envDayMissing).1 →
        (run_verification envDayMissing).1.getLast? = some Step.dayAssert) :=
  day_missing_fails_before_click envDayMissing (by decide)

/-- Claim C8: the script is deterministic over its own inputs — the mock
dataset `mock_schedule`, the page URL `page_url`, the step sequence
`scriptSteps`, and the screenshot destination are all fixed constants, so
the only variability between two runs is the environment (browser
rendering).  Two runs over equal environments execute the same steps with
the same outcome and write the same files. -/
theorem run_deterministic (e₁ e₂ : Env) (h : e₁ = e₂) :
    run_verification e₁ = run_verification e₂
    ∧ runWrites e₁ = runWrites e₂ := by
  subst h
  exact ⟨rfl, rfl⟩

/-- Witness for claim C8: two runs over the environment `envOk` agree. -/
theorem run_deterministic_witness :
    run_verification envOk = run_verification envOk
    ∧ runWrites envOk = runWrites envOk :=
  run_deterministic envOk envOk rfl

/-- Claim C9: the screenshot step executes only on a completed run, in
which every content assertion passed, and in the executed trace it comes
strictly after the modal-visibility, heading-text, duty-card and
Withdraw-button assertions — so a freshly written screenshot implies all
assertions passed. -/
theorem screenshot_after_assertions (env : Env)
    (h : Step.screenshot ∈ (run_verification env).1) :
    (run_verification env).2 = true
    ∧ env.modalVisible = true ∧ env.headingVisible = true
    ∧ cardAssertOk env = true ∧ withdrawAssertOk env = true
    ∧ (run_verification env).1.indexOf Step.modalAssert <
        (run_verification env).1.indexOf Step.screenshot
    ∧ (run_verification env).1.indexOf Step.headingAssert <
        (run_verification env).1.indexOf Step.screenshot
    ∧ (run_verification env).1.indexOf Step.cardAssert <
        (run_verification env).1.indexOf Step.screenshot
    ∧ (run_verification env).1.indexOf Step.withdrawAssert <
        (run_verification env).1.indexOf Step.screenshot := by
  have hflag : (run_verification env).2 = true := by
    cases hf : (run_verification env).2
    · rcases run_fail_cases env hf with h1|h1|h1|h1|h1|h1|h1|h1 <;>
        rw [h1] at h <;> exact absurd h (by decide)
    · rfl
  have hc := (run_success_iff env).mp hflag
  rw [run_success_trace env hflag]
  exact ⟨hflag, hc.2.2.2.2.1, hc.2.2.2.2.2.1, hc.2.2.2.2.2.2.1,
    hc.2.2.2.2.2.2.2, by decide, by decide, by decide, by decide⟩

/-- Witness for claim C9: on `envOk` the screenshot step executes, the run
is successful, and the capture follows all four content assertions. -/
theorem screenshot_after_assertions_witness :
    (run_verification envOk).2 = true
    ∧ envOk.modalVisible = true ∧ envOk.headingVisible = true
    ∧ cardAssertOk envOk = true ∧ withdrawAssertOk envOk = true
    ∧ (run_verification envOk).1.indexOf Step.modalAssert <
        (run_verification envOk).1.indexOf Step.screenshot
    ∧ (run_verification envOk).1.indexOf Step.headingAssert <
        (run_verification envOk).1.indexOf Step.screenshot
    ∧ (run_verification envOk).1.indexOf Step.cardAssert <
        (run_verification envOk).1.indexOf Step.screenshot
    ∧ (run_verification envOk).1.indexOf Step.withdrawAssert <
        (run_verification envOk).1.indexOf Step.screenshot :=
  screenshot_after_assertions envOk (by decide)

/-- Claim C10: the served directory `SERVE_DIR = "."` and the screenshot
destination `jules-scratch/verification/verification.png` are both
relative paths, so the operating system resolves them against the
process's current working directory at launch — two different working
directories yield two different resolved locations — and `resolveUnder`
takes no script-location input at all, so neither path depends on where
the script file itself lives. -/
theorem relative_paths_resolve_under_cwd (cwd : String) :
    isAbsolutePath SERVE_DIR = false
    ∧ isAbsolutePath screenshot_path = false
    ∧ resolveUnder cwd SERVE_DIR = cwd ++ "/" ++ SERVE_DIR
    ∧ resolveUnder cwd screenshot_path = cwd ++ "/" ++ screenshot_path
    ∧ resolveUnder "/home/alice" SERVE_DIR ≠ resolveUnder "/home/bob" SERVE_DIR
    ∧ resolveUnder "/home/alice" screenshot_path ≠
        resolveUnder "/home/bob" screenshot_path := by
  refine ⟨by decide, by decide, ?_, ?_, by decide, by decide⟩
  · unfold resolveUnder
    rw [if_neg (by decide)]
  · unfold resolveUnder
    rw [if_neg (by decide)]
